import Mathlib

/-!
# Verification of the indicator / multi-model signal-aggregation pipeline

Shallow embedding of the algorithmic core of the repository:

* `TechnicalIndicators` — `src/FInMasterv2/src/indicators/technical.py`
* `IndicatorCalculator` — `src/stock_analysis/technical_indicators/indicator_calculator.py`
* the four trading models — `src/FInMasterv2/src/models/*.py`
* the consensus aggregation — `src/FInMasterv2/src/orchestration/core.py`

Modelling conventions (stated once, used throughout):

* A pandas cell is `Option ℚ`: `none` is NaN ("missing"), `some q` a number.
  Machine floats are modelled as exact rationals; the few places where IEEE
  special values matter (division producing `inf`/NaN in the RSI) are embedded
  with an explicit case split matching the IEEE outcome on those inputs.
* Python `int(x)` on a non-negative ratio of small integer counts is embedded
  as natural floor division, which agrees with the float computation on the
  count ranges that occur (a handful of models).
* The float comparison `requested_window <= data_length * 0.3` is embedded as
  the exact rational comparison `10 * requested ≤ 3 * n`.
* `√` from `Real` is used for the standard deviation; definitions needing it
  are the only noncomputable ones.
* DataFrame timestamps are embedded as the row position `ℕ`; `isoformat()`
  strings of strictly increasing timestamps compare exactly like positions.
* Human-readable reasoning strings are carried structurally (as `List String`)
  but their interpolated numeric payload is abbreviated; no theorem below
  depends on the content of a reasoning string.  The `error` field content is
  embedded faithfully because claims do inspect it.
-/

/-- A pandas Series cell: `none` models NaN/missing. -/
abbrev Cell := Option ℚ

/-- `series.dropna()` length: number of non-missing cells. -/
def validCount (s : List Cell) : ℕ := (s.filterMap id).length

/-- Latest cell of a series turned into a value, `none` when the series is
empty or its last cell is NaN (`s.iloc[-1] if pd.notna(s.iloc[-1]) else None`). -/
def latestValue (s : List Cell) : Option ℚ :=
  match s.getLast? with
  | some (some v) => some v
  | _ => none

/-- Previous cell of a series (`s.iloc[-2] if len(s) >= 2 and pd.notna(s.iloc[-2]) else None`). -/
def prevValue (s : List Cell) : Option ℚ :=
  if 2 ≤ s.length then
    match s.get? (s.length - 2) with
    | some (some v) => some v
    | _ => none
  else none

/-- Arithmetic mean of a list of rationals (0 on the empty list; callers
only use it on non-empty windows). -/
def listMean (l : List ℚ) : ℚ := l.sum / l.length

/-! ## Consensus aggregation

From `src/FInMasterv2/src/orchestration/core.py`, lines 88–127.  The input is
the list of `signal` strings of the successfully analyzed models
(`model_signals.values()`); `total_analyzed_models` is its length.  The code
also counts `"WAIT"` votes, but uses that count only in the reported signal
distribution — the decision rule reads only the `"HOLD"` count. -/

structure Consensus where
  signal : String
  confidence : ℕ
  agreement : String
  deriving DecidableEq

/-- Consensus decision of `core.py`.  `int((count / total) * 100)` is embedded
as `100 * count / total` in `ℕ` (floor). -/
def consensus (signals : List String) : Consensus :=
  let buy := signals.count "BUY"
  let sell := signals.count "SELL"
  let hold := signals.count "HOLD"
  let total := signals.length
  if 0 < total then
    if buy > sell ∧ buy ≥ hold then
      let conf := 100 * buy / total
      { signal := "BUY", confidence := conf,
        agreement :=
          if conf > 75 then "Strong Bullish"
          else if conf > 50 then "Bullish" else "Slightly Bullish" }
    else if sell > buy ∧ sell ≥ hold then
      let conf := 100 * sell / total
      { signal := "SELL", confidence := conf,
        agreement :=
          if conf > 75 then "Strong Bearish"
          else if conf > 50 then "Bearish" else "Slightly Bearish" }
    else
      let holdRatioConfidence := 100 * hold / total
      let dominant := max buy sell
      let subordinate := min buy sell
      let marginConfidence := 100 * (dominant - subordinate) / total
      { signal := "HOLD", confidence := max holdRatioConfidence marginConfidence,
        agreement :=
          if buy > sell then "Slightly Bullish (Mixed)"
          else if sell > buy then "Slightly Bearish (Mixed)" else "Mixed" }
  else
    { signal := "N/A", confidence := 0, agreement := "No Models Run" }

/-- The vote-counting rule C1 attributes to the spec: WAIT and HOLD votes
forming one category.  Written from the spec's words, for comparison with the
source's `consensus` above. -/
def specHoldWaitCount (signals : List String) : ℕ :=
  signals.count "HOLD" + signals.count "WAIT"

/-- C1 (counterexample): the claim fails on the code in two ways.  With votes
`[BUY, WAIT, WAIT, WAIT]` the code answers BUY although under the claim's
merged HOLD/WAIT category `buy_count = 1 < 3 = hold_count`, so the claimed
"BUY iff" is violated; and with votes `[BUY, BUY, SELL]` the code's confidence
is `int(2/3*100) = 66` while the claimed `round(2/3*100)` is 67. -/
theorem c1_counterexample :
    (consensus ["BUY", "WAIT", "WAIT", "WAIT"]).signal = "BUY" ∧
    ¬ (List.count "BUY" ["BUY", "WAIT", "WAIT", "WAIT"] >
          List.count "SELL" ["BUY", "WAIT", "WAIT", "WAIT"] ∧
        List.count "BUY" ["BUY", "WAIT", "WAIT", "WAIT"] ≥
          specHoldWaitCount ["BUY", "WAIT", "WAIT", "WAIT"]) ∧
    (consensus ["BUY", "BUY", "SELL"]).confidence = 66 ∧
    round ((2 : ℚ) / 3 * 100) = 67 := by
  refine ⟨by decide, by decide, by decide, ?_⟩
  norm_num [round_eq]

/-- C1 (amended): with at least one successful model, the consensus signal is
BUY iff `buy_count > sell_count` and `buy_count ≥ hold_count`, where the HOLD
count includes only literal "HOLD" votes (WAIT votes enter the total but no
decision category), and when BUY wins the confidence is the floor (Python
`int` truncation) of `buy_count / total * 100`, not its rounding. -/
theorem c1_consensus_buy_rule (signals : List String) (h : 0 < signals.length) :
    ((consensus signals).signal = "BUY" ↔
      signals.count "BUY" > signals.count "SELL" ∧
        signals.count "BUY" ≥ signals.count "HOLD") ∧
    ((consensus signals).signal = "BUY" →
      (consensus signals).confidence = 100 * signals.count "BUY" / signals.length) := by
  unfold consensus
  simp only [if_pos h]
  split_ifs with h1 h2 <;>
    constructor <;> simp_all <;> intro h' <;> simp_all

/-- Witness for `c1_consensus_buy_rule` at the vote list `[BUY, BUY, SELL]`. -/
theorem c1_consensus_buy_rule_witness :
    (((consensus ["BUY", "BUY", "SELL"]).signal = "BUY" ↔
      List.count "BUY" ["BUY", "BUY", "SELL"] > List.count "SELL" ["BUY", "BUY", "SELL"] ∧
        List.count "BUY" ["BUY", "BUY", "SELL"] ≥ List.count "HOLD" ["BUY", "BUY", "SELL"]) ∧
    ((consensus ["BUY", "BUY", "SELL"]).signal = "BUY" →
      (consensus ["BUY", "BUY", "SELL"]).confidence =
        100 * List.count "BUY" ["BUY", "BUY", "SELL"] / 3)) :=
  c1_consensus_buy_rule ["BUY", "BUY", "SELL"] (by decide)

/-! ## Indicator engine, FInMasterv2 variant

From `src/FInMasterv2/src/indicators/technical.py`.  `data.rolling(window=p)`
leaves the first `p−1` cells NaN (`min_periods` defaults to the window size);
`ewm(..., adjust=False)` seeds the recursion with the first observation. -/

namespace TechnicalIndicators

/-- `data.rolling(window=period).mean()`: the cell at row `i` is the mean of
rows `i−period+1 … i` when that window is complete, NaN otherwise.  (pandas
rejects `period < 1`; the `1 ≤ period` conjunct keeps the embedding total.) -/
def calculate_sma (data : List ℚ) (period : ℕ) : List Cell :=
  (List.range data.length).map fun i =>
    if period ≤ i + 1 ∧ 1 ≤ period then
      some (listMean ((data.take (i + 1)).drop (i + 1 - period)))
    else none

/-- The `adjust=False` exponential-smoothing recursion continued from a
previous smoothed value: `y_t = (1−α)·y_{t−1} + α·x_t`. -/
def ewmFrom (α : ℚ) (prev : ℚ) : List ℚ → List ℚ
  | [] => []
  | x :: xs =>
    let y := (1 - α) * prev + α * x
    y :: ewmFrom α y xs

/-- `series.ewm(..., adjust=False).mean()` for a given smoothing factor `α`:
the first output equals the first input, then the recursion above. -/
def ewmRec (α : ℚ) : List ℚ → List ℚ
  | [] => []
  | x :: xs => x :: ewmFrom α x xs

/-- `data.ewm(span=period, adjust=False).mean()`, smoothing factor
`α = 2/(period+1)`. -/
def calculate_ema (data : List ℚ) (period : ℕ) : List ℚ :=
  ewmRec (2 / (period + 1)) data

/-- `delta = data.diff(1)`; `gain = delta.where(delta > 0, 0)`.  The first
delta is NaN and `NaN > 0` is false, so the first gain cell is the literal 0. -/
def gains (data : List ℚ) : List ℚ :=
  match data with
  | [] => []
  | _ :: rest =>
      0 :: (List.zipWith (fun b a => b - a) rest data).map fun d => if 0 < d then d else 0

/-- `loss = -delta.where(delta < 0, 0)`: losses stored as positive magnitudes,
first cell 0 like `gains`. -/
def losses (data : List ℚ) : List ℚ :=
  match data with
  | [] => []
  | _ :: rest =>
      0 :: (List.zipWith (fun b a => b - a) rest data).map fun d => if d < 0 then -d else 0

/-- `gain.ewm(com=period-1, adjust=False).mean()`: `com = period−1` gives
`α = 1/(1+com) = 1/period`. -/
def avg_gain (data : List ℚ) (period : ℕ) : List ℚ :=
  ewmRec (1 / (period : ℚ)) (gains data)

/-- `loss.ewm(com=period-1, adjust=False).mean()`. -/
def avg_loss (data : List ℚ) (period : ℕ) : List ℚ :=
  ewmRec (1 / (period : ℚ)) (losses data)

/-- `rs = avg_gain / avg_loss; rsi = 100 - 100/(1+rs)` cellwise, with the
IEEE outcomes of the zero-denominator cases made explicit: `avg_loss = 0` with
`avg_gain ≠ 0` gives `rs = ±inf`, hence `rsi = 100 − 100/inf = 100`; `0/0`
gives NaN, which propagates to a NaN (missing) RSI cell. -/
def rsiCell (g l : ℚ) : Cell :=
  if l = 0 then (if g = 0 then none else some 100)
  else some (100 - 100 / (1 + g / l))

/-- `TechnicalIndicators.calculate_rsi`. -/
def calculate_rsi (data : List ℚ) (period : ℕ) : List Cell :=
  List.zipWith rsiCell (avg_gain data period) (avg_loss data period)

/-- MACD line, signal line and histogram
(`ema_fast − ema_slow`, `EMA(signal)` of the line, line − signal). -/
def calculate_macd (data : List ℚ) (fast_period slow_period signal_period : ℕ) :
    List ℚ × List ℚ × List ℚ :=
  let macd_line :=
    List.zipWith (fun a b => a - b) (calculate_ema data fast_period) (calculate_ema data slow_period)
  let signal_line := ewmRec (2 / (signal_period + 1)) macd_line
  let histogram := List.zipWith (fun a b => a - b) macd_line signal_line
  (macd_line, signal_line, histogram)

/-- Population variance of a window (`ddof=0`: divide by N). -/
def popVar (w : List ℚ) : ℚ :=
  (w.map fun x => (x - listMean w) ^ 2).sum / w.length

/-- `data.rolling(window=period).std(ddof=0)`, squared: the rolling population
variance, NaN on incomplete leading windows exactly like `calculate_sma`. -/
def rollingPopVar (data : List ℚ) (period : ℕ) : List Cell :=
  (List.range data.length).map fun i =>
    if period ≤ i + 1 ∧ 1 ≤ period then
      some (popVar ((data.take (i + 1)).drop (i + 1 - period)))
    else none

/-- `middle_band + rolling_std * std_dev` cellwise (the std is the square root
of the rolling population variance, taken in `ℝ`). -/
noncomputable def calculate_bollinger_upper (data : List ℚ) (period : ℕ) (std_dev : ℚ) :
    List (Option ℝ) :=
  List.zipWith
    (fun m v =>
      match m, v with
      | some m, some v => some ((m : ℝ) + (std_dev : ℝ) * Real.sqrt (v : ℝ))
      | _, _ => none)
    (calculate_sma data period) (rollingPopVar data period)

/-- `middle_band - rolling_std * std_dev` cellwise. -/
noncomputable def calculate_bollinger_lower (data : List ℚ) (period : ℕ) (std_dev : ℚ) :
    List (Option ℝ) :=
  List.zipWith
    (fun m v =>
      match m, v with
      | some m, some v => some ((m : ℝ) - (std_dev : ℝ) * Real.sqrt (v : ℝ))
      | _, _ => none)
    (calculate_sma data period) (rollingPopVar data period)

/-- `TechnicalIndicators.calculate_bollinger_bands`: (upper, middle, lower),
the middle band being literally `calculate_sma data period`. -/
noncomputable def calculate_bollinger_bands (data : List ℚ) (period : ℕ) (std_dev : ℚ) :
    List (Option ℝ) × List Cell × List (Option ℝ) :=
  (calculate_bollinger_upper data period std_dev,
   calculate_sma data period,
   calculate_bollinger_lower data period std_dev)

end TechnicalIndicators

/-! ## Indicator engine, stock_analysis variant

From `src/stock_analysis/technical_indicators/indicator_calculator.py`:
adaptive window sizing plus `rolling(..., min_periods=1)` transforms.  Only the
default `adaptive=True` code path is embedded (the `adaptive=False` branch,
which raises on oversized windows, is not referenced by any claim). -/

namespace IndicatorCalculator

/-- The `WINDOW_CONFIGS` table: regime name and parameter key to value. -/
def WINDOW_CONFIGS (regime key : String) : Option ℕ :=
  if regime = "short" then
    if key = "sma_short" then some 5
    else if key = "sma_medium" then some 10
    else if key = "sma_long" then some 20
    else if key = "rsi" then some 14
    else if key = "macd_fast" then some 8
    else if key = "macd_slow" then some 17
    else if key = "macd_signal" then some 9
    else if key = "bb_period" then some 10
    else if key = "bb_std" then some 2
    else none
  else if regime = "medium" then
    if key = "sma_short" then some 10
    else if key = "sma_medium" then some 20
    else if key = "sma_long" then some 50
    else if key = "rsi" then some 14
    else if key = "macd_fast" then some 12
    else if key = "macd_slow" then some 26
    else if key = "macd_signal" then some 9
    else if key = "bb_period" then some 20
    else if key = "bb_std" then some 2
    else none
  else if regime = "long" then
    if key = "sma_short" then some 20
    else if key = "sma_medium" then some 50
    else if key = "sma_long" then some 200
    else if key = "rsi" then some 14
    else if key = "macd_fast" then some 12
    else if key = "macd_slow" then some 26
    else if key = "macd_signal" then some 9
    else if key = "bb_period" then some 20
    else if key = "bb_std" then some 2
    else none
  else none

/-- `_determine_data_regime`. -/
def determine_data_regime (data_length : ℕ) : String :=
  if data_length < 60 then "short"
  else if data_length < 150 then "medium"
  else "long"

/-- `_get_adaptive_window`, returning the chosen window together with whether
`warnings.warn` fired.  The float test `requested <= data_length * 0.3` is the
exact comparison `10·requested ≤ 3·data_length`; `config.get(t, default)` uses
`min(requested, data_length // 4)` as the dictionary default; an oversized
fallback is clamped to `max(2, data_length // 4)`; the warning fires exactly
when the returned window differs from the requested one. -/
def get_adaptive_window (data_length requested_window : ℕ) (indicator_type : String) :
    ℕ × Bool :=
  if 10 * requested_window ≤ 3 * data_length then (requested_window, false)
  else
    let config := WINDOW_CONFIGS (determine_data_regime data_length)
    let fb0 := (config indicator_type).getD (min requested_window (data_length / 4))
    let fb := if data_length < fb0 then max 2 (data_length / 4) else fb0
    (fb, fb != requested_window)

/-- `data['Close'].rolling(window=w, min_periods=1).mean()`: the cell at row
`i` is the mean of the last `min(w, i+1)` closes — partial windows allowed, so
no cell is ever missing. -/
def rollingMeanMinp1 (data : List ℚ) (window : ℕ) : List Cell :=
  (List.range data.length).map fun i =>
    some (listMean ((data.take (i + 1)).drop (i + 1 - window)))

/-- `IndicatorCalculator.calculate_sma` (default `adaptive=True`): adapt the
window (indicator type `'sma_long'`), then a min_periods=1 rolling mean. -/
def calculate_sma (data : List ℚ) (window : ℕ) : List Cell :=
  rollingMeanMinp1 data (get_adaptive_window data.length window "sma_long").1

/-- `data['Close'].rolling(window=w, min_periods=1).std()`, squared: pandas
`std` defaults to `ddof=1` (sample variance, divide by N−1), which is NaN on
single-element windows. -/
def rollingSampleVarMinp1 (data : List ℚ) (window : ℕ) : List Cell :=
  (List.range data.length).map fun i =>
    let w := (data.take (i + 1)).drop (i + 1 - window)
    if 2 ≤ w.length then
      some ((w.map fun x => (x - listMean w) ^ 2).sum / ((w.length : ℚ) - 1))
    else none

/-- `IndicatorCalculator.calculate_bollinger_bands` (default `adaptive=True`):
adapt the window (indicator type `'bb_period'`), middle band a min_periods=1
rolling mean, half-width `num_std` times the min_periods=1 rolling `std()` —
the sample (N−1) standard deviation.  Returns (upper, middle, lower). -/
noncomputable def calculate_bollinger_bands (data : List ℚ) (window : ℕ) (num_std : ℚ) :
    List (Option ℝ) × List Cell × List (Option ℝ) :=
  let w := (get_adaptive_window data.length window "bb_period").1
  let middle := rollingMeanMinp1 data w
  let var := rollingSampleVarMinp1 data w
  let upper := List.zipWith
    (fun m v =>
      match m, v with
      | some m, some v => some ((m : ℝ) + (num_std : ℝ) * Real.sqrt (v : ℝ))
      | _, _ => none)
    middle var
  let lower := List.zipWith
    (fun m v =>
      match m, v with
      | some m, some v => some ((m : ℝ) - (num_std : ℝ) * Real.sqrt (v : ℝ))
      | _, _ => none)
    middle var
  (upper, middle, lower)

end IndicatorCalculator

/-! ## C6: the adaptive-window policy -/

/-- C6 (counterexample): with a single available bar (`data_length = 1`) and a
requested window of 1, the fallback path fires (1 > 0.3 bars) and returns the
clamped window `max(2, 1 // 4) = 2`, which exceeds the 1 available bar — the
claim's "never exceeds the number of available bars" fails at `n = 1`. -/
theorem c6_counterexample :
    IndicatorCalculator.get_adaptive_window 1 1 "sma_long" = (2, true) ∧
    1 < (IndicatorCalculator.get_adaptive_window 1 1 "sma_long").1 := by
  constructor <;> decide

/-- C6 (amended): for the indicator types the repository actually passes to
`_get_adaptive_window`, whenever the fallback path is taken (requested window
above 30% of the sample count) the substituted window is at least 2, exceeds
the available bar count only in the degenerate case `n < 2` (it is always at
most `max 2 n`), and the warning fires exactly when the returned window
differs from the requested one. -/
theorem c6_adaptive_window_bounds (n req : ℕ) (t : String)
    (ht : t ∈ ["sma_long", "rsi", "macd_fast", "macd_slow", "macd_signal", "bb_period"])
    (hsub : ¬ 10 * req ≤ 3 * n) :
    2 ≤ (IndicatorCalculator.get_adaptive_window n req t).1 ∧
    (IndicatorCalculator.get_adaptive_window n req t).1 ≤ max 2 n ∧
    ((IndicatorCalculator.get_adaptive_window n req t).2 = true ↔
      (IndicatorCalculator.get_adaptive_window n req t).1 ≠ req) := by
  have hreg : IndicatorCalculator.determine_data_regime n = "short" ∨
      IndicatorCalculator.determine_data_regime n = "medium" ∨
      IndicatorCalculator.determine_data_regime n = "long" := by
    unfold IndicatorCalculator.determine_data_regime
    split_ifs <;> simp
  have hc : ∃ c, IndicatorCalculator.WINDOW_CONFIGS
      (IndicatorCalculator.determine_data_regime n) t = some c ∧ 5 ≤ c := by
    rcases hreg with h | h | h <;> rw [h] <;> fin_cases ht <;>
      first
        | exact ⟨5, rfl, by norm_num⟩
        | exact ⟨8, rfl, by norm_num⟩
        | exact ⟨9, rfl, by norm_num⟩
        | exact ⟨10, rfl, by norm_num⟩
        | exact ⟨12, rfl, by norm_num⟩
        | exact ⟨14, rfl, by norm_num⟩
        | exact ⟨17, rfl, by norm_num⟩
        | exact ⟨20, rfl, by norm_num⟩
        | exact ⟨26, rfl, by norm_num⟩
        | exact ⟨50, rfl, by norm_num⟩
        | exact ⟨200, rfl, by norm_num⟩
  obtain ⟨c, hc, hc5⟩ := hc
  unfold IndicatorCalculator.get_adaptive_window
  rw [if_neg hsub]
  simp only [hc, Option.getD_some]
  split_ifs <;> refine ⟨by omega, by omega, by simp [bne_iff_ne]⟩

/-- Witness for `c6_adaptive_window_bounds` at `n = 1`, `req = 1`,
`t = "sma_long"`. -/
theorem c6_adaptive_window_bounds_witness :
    (("sma_long" : String) ∈
        ["sma_long", "rsi", "macd_fast", "macd_slow", "macd_signal", "bb_period"]) ∧
    ¬ 10 * 1 ≤ 3 * 1 ∧
    (2 ≤ (IndicatorCalculator.get_adaptive_window 1 1 "sma_long").1 ∧
      (IndicatorCalculator.get_adaptive_window 1 1 "sma_long").1 ≤ max 2 1 ∧
      ((IndicatorCalculator.get_adaptive_window 1 1 "sma_long").2 = true ↔
        (IndicatorCalculator.get_adaptive_window 1 1 "sma_long").1 ≠ 1)) :=
  ⟨by decide, by decide,
    c6_adaptive_window_bounds 1 1 "sma_long" (by decide) (by decide)⟩

/-! ## C4: SMA missing-prefix discipline -/

/-- C4 (counterexample): the stock_analysis `IndicatorCalculator.calculate_sma`
uses `min_periods=1`, so on the 3-bar series `[1, 3, 5]` with period 2 it
produces a value at every row — zero missing leading values where the claim
requires exactly `p − 1 = 1`. -/
theorem c4_counterexample :
    IndicatorCalculator.calculate_sma [1, 3, 5] 2 = [some 1, some 2, some 4] ∧
    ((IndicatorCalculator.calculate_sma [1, 3, 5] 2).takeWhile Option.isNone).length = 0 ∧
    (0 : ℕ) ≠ 2 - 1 := by
  have hw : (IndicatorCalculator.get_adaptive_window 3 2 "sma_long").1 = 2 := by decide
  have h : IndicatorCalculator.calculate_sma [1, 3, 5] 2 = [some 1, some 2, some 4] := by
    unfold IndicatorCalculator.calculate_sma
    rw [show ([1, 3, 5] : List ℚ).length = 3 from rfl, hw]
    unfold IndicatorCalculator.rollingMeanMinp1
    norm_num [List.range_succ, listMean]
  exact ⟨h, by rw [h]; rfl, by decide⟩

/-- Destructing a cell of a `zipWith`: a present output cell comes from
present cells of both inputs. -/
theorem getElem?_zipWith_some {α β γ : Type*} {f : α → β → γ} {as : List α} {bs : List β}
    {i : ℕ} {c : γ} (h : (List.zipWith f as bs)[i]? = some c) :
    ∃ a b, as[i]? = some a ∧ bs[i]? = some b ∧ f a b = c := by
  rw [List.getElem?_zipWith] at h
  cases ha : as[i]? with
  | none => rw [ha] at h; exact absurd h (by simp)
  | some a =>
    cases hb : bs[i]? with
    | none => rw [ha, hb] at h; exact absurd h (by simp)
    | some b =>
      rw [ha, hb] at h
      exact ⟨a, b, rfl, rfl, by injection h⟩

/-- C4 (amended): the FInMasterv2 `TechnicalIndicators.calculate_sma` does
satisfy the claim — for `p ≥ 1` a cell is missing exactly on the incomplete
leading windows (`i + 1 < p`, hence exactly `p−1` missing cells when `n ≥ p`
and all cells missing when `n < p`), and appending future bars never changes an
existing cell (no look-ahead).  The stock_analysis
`IndicatorCalculator.calculate_sma`, by contrast, computes a partial-window
(`min_periods=1`) mean at every row over current-and-earlier bars only, so it
has no missing leading cells at all. -/
theorem c4_sma_variants :
    (∀ (data : List ℚ) (p i : ℕ), 1 ≤ p → i < data.length →
      ((TechnicalIndicators.calculate_sma data p)[i]? = some none ↔ i + 1 < p)) ∧
    (∀ (data extra : List ℚ) (p i : ℕ), i < data.length →
      (TechnicalIndicators.calculate_sma (data ++ extra) p)[i]? =
        (TechnicalIndicators.calculate_sma data p)[i]?) ∧
    (∀ (data : List ℚ) (w i : ℕ), i < data.length →
      (IndicatorCalculator.calculate_sma data w)[i]? =
        some (some (listMean ((data.take (i + 1)).drop
          (i + 1 - (IndicatorCalculator.get_adaptive_window data.length w "sma_long").1))))) := by
  refine ⟨?_, ?_, ?_⟩
  · intro data p i hp hi
    unfold TechnicalIndicators.calculate_sma
    rw [List.getElem?_map, List.getElem?_range hi]
    by_cases hc : p ≤ i + 1
    · rw [Option.map_some', if_pos ⟨hc, hp⟩]
      exact iff_of_false (by simp) (by omega)
    · rw [Option.map_some', if_neg (fun hh => hc hh.1)]
      exact iff_of_true rfl (by omega)
  · intro data extra p i hi
    have hi' : i < (data ++ extra).length := by
      rw [List.length_append]; omega
    unfold TechnicalIndicators.calculate_sma
    rw [List.getElem?_map, List.getElem?_map, List.getElem?_range hi',
      List.getElem?_range hi, Option.map_some', Option.map_some',
      List.take_append_of_le_length (by omega)]
  · intro data w i hi
    unfold IndicatorCalculator.calculate_sma IndicatorCalculator.rollingMeanMinp1
    rw [List.getElem?_map, List.getElem?_range hi]
    rfl

/-- Witness for `c4_sma_variants`, instantiating each part on the 3-bar
series `[1, 3, 5]` with period 2. -/
theorem c4_sma_variants_witness :
    ((1 : ℕ) ≤ 2 ∧ 0 < ([1, 3, 5] : List ℚ).length ∧
      ((TechnicalIndicators.calculate_sma [1, 3, 5] 2)[0]? = some none ↔ 0 + 1 < 2)) ∧
    ((TechnicalIndicators.calculate_sma ([1, 3, 5] ++ [7]) 2)[0]? =
      (TechnicalIndicators.calculate_sma [1, 3, 5] 2)[0]?) ∧
    ((IndicatorCalculator.calculate_sma [1, 3, 5] 2)[0]? =
      some (some (listMean ((([1, 3, 5] : List ℚ).take (0 + 1)).drop
        (0 + 1 - (IndicatorCalculator.get_adaptive_window
          ([1, 3, 5] : List ℚ).length 2 "sma_long").1))))) :=
  ⟨⟨by norm_num, by norm_num,
      c4_sma_variants.1 [1, 3, 5] 2 0 (by norm_num) (by norm_num)⟩,
    c4_sma_variants.2.1 [1, 3, 5] [7] 2 0 (by norm_num),
    c4_sma_variants.2.2 [1, 3, 5] 2 0 (by norm_num)⟩

/-! ## C3: RSI boundedness -/

/-- Every value of the `adjust=False` smoothing recursion over non-negative
inputs from a non-negative seed stays non-negative (for `0 ≤ α ≤ 1`). -/
theorem ewmFrom_nonneg (α : ℚ) (h0 : 0 ≤ α) (h1 : α ≤ 1) :
    ∀ (l : List ℚ) (prev : ℚ), 0 ≤ prev → (∀ x ∈ l, 0 ≤ x) →
      ∀ y ∈ TechnicalIndicators.ewmFrom α prev l, 0 ≤ y := by
  intro l
  induction l with
  | nil => intro prev _ _ y hy; simp [TechnicalIndicators.ewmFrom] at hy
  | cons x xs ih =>
    intro prev hp hl y hy
    simp only [TechnicalIndicators.ewmFrom] at hy
    have hx : 0 ≤ x := hl x (by simp)
    have hy0 : 0 ≤ (1 - α) * prev + α * x := by nlinarith
    rcases List.mem_cons.mp hy with h | h
    · exact h ▸ hy0
    · exact ih ((1 - α) * prev + α * x) hy0 (fun z hz => hl z (by simp [hz])) y h

/-- `ewm(..., adjust=False)` of a non-negative series is non-negative. -/
theorem ewmRec_nonneg (α : ℚ) (h0 : 0 ≤ α) (h1 : α ≤ 1) (l : List ℚ)
    (hl : ∀ x ∈ l, 0 ≤ x) : ∀ y ∈ TechnicalIndicators.ewmRec α l, 0 ≤ y := by
  cases l with
  | nil => simp [TechnicalIndicators.ewmRec]
  | cons x xs =>
    intro y hy
    simp only [TechnicalIndicators.ewmRec] at hy
    have hx : 0 ≤ x := hl x (by simp)
    rcases List.mem_cons.mp hy with h | h
    · exact h ▸ hx
    · exact ewmFrom_nonneg α h0 h1 xs x hx (fun z hz => hl z (by simp [hz])) y h

/-- The gain series is non-negative. -/
theorem gains_nonneg (data : List ℚ) : ∀ x ∈ TechnicalIndicators.gains data, 0 ≤ x := by
  unfold TechnicalIndicators.gains
  cases data with
  | nil => simp
  | cons a rest =>
    intro x hx
    rcases List.mem_cons.mp hx with h | h
    · simp [h]
    · obtain ⟨d, _, hd⟩ := List.mem_map.mp h
      rw [← hd]
      split_ifs with h' <;> [linarith; rfl]

/-- The loss series (stored as positive magnitudes) is non-negative. -/
theorem losses_nonneg (data : List ℚ) : ∀ x ∈ TechnicalIndicators.losses data, 0 ≤ x := by
  unfold TechnicalIndicators.losses
  cases data with
  | nil => simp
  | cons a rest =>
    intro x hx
    rcases List.mem_cons.mp hx with h | h
    · simp [h]
    · obtain ⟨d, _, hd⟩ := List.mem_map.mp h
      rw [← hd]
      split_ifs with h' <;> [linarith; rfl]

/-- The RSI formula cell is bounded in `[0, 100]` whenever the smoothed gain
and loss feeding it are non-negative and the cell is not missing. -/
theorem rsiCell_bounds {g l : ℚ} (hg : 0 ≤ g) (hl : 0 ≤ l) {v : ℚ}
    (h : TechnicalIndicators.rsiCell g l = some v) : 0 ≤ v ∧ v ≤ 100 := by
  unfold TechnicalIndicators.rsiCell at h
  split_ifs at h with h0 hg0
  · injection h with h
    subst h
    norm_num
  · have hlpos : 0 < l := lt_of_le_of_ne hl (Ne.symm h0)
    injection h with h
    subst h
    have hge : 0 ≤ g / l := div_nonneg hg hl
    have hpos : (0 : ℚ) < 1 + g / l := by linarith
    constructor
    · have hle : 100 / (1 + g / l) ≤ 100 := by
        rw [div_le_iff₀ hpos]; nlinarith
      linarith
    · have hgt : 0 < 100 / (1 + g / l) := by positivity
      linarith

/-- C3: every non-missing cell of `TechnicalIndicators.calculate_rsi` lies in
`[0, 100]`; at a cell where the smoothed loss is exactly zero while the
smoothed gain is positive the RSI is exactly 100 (the IEEE `inf` edge case),
and where the smoothed gain is zero while the loss is positive it is exactly
0. -/
theorem c3_rsi_bounded (data : List ℚ) (period : ℕ) (hp : 1 ≤ period) :
    (∀ (i : ℕ) (v : ℚ),
      (TechnicalIndicators.calculate_rsi data period)[i]? = some (some v) →
      0 ≤ v ∧ v ≤ 100) ∧
    (∀ (i : ℕ) (g l : ℚ), (TechnicalIndicators.avg_gain data period)[i]? = some g →
      (TechnicalIndicators.avg_loss data period)[i]? = some l →
      (l = 0 → 0 < g →
        (TechnicalIndicators.calculate_rsi data period)[i]? = some (some (100 : ℚ))) ∧
      (g = 0 → 0 < l →
        (TechnicalIndicators.calculate_rsi data period)[i]? = some (some (0 : ℚ)))) := by
  have hα0 : (0 : ℚ) ≤ 1 / (period : ℚ) := by positivity
  have hα1 : 1 / (period : ℚ) ≤ 1 := by
    rw [div_le_one (by exact_mod_cast hp)]
    exact_mod_cast hp
  constructor
  · intro i v h
    unfold TechnicalIndicators.calculate_rsi at h
    obtain ⟨g, l, hg, hl, hf⟩ := getElem?_zipWith_some h
    have hgn : 0 ≤ g :=
      ewmRec_nonneg _ hα0 hα1 _ (gains_nonneg data) g (List.getElem?_mem hg)
    have hln : 0 ≤ l :=
      ewmRec_nonneg _ hα0 hα1 _ (losses_nonneg data) l (List.getElem?_mem hl)
    exact rsiCell_bounds hgn hln hf
  · intro i g l hg hl
    have hr : (TechnicalIndicators.calculate_rsi data period)[i]? =
        some (TechnicalIndicators.rsiCell g l) := by
      unfold TechnicalIndicators.calculate_rsi
      rw [List.getElem?_zipWith, hg, hl]
    constructor
    · intro hl0 hg0
      rw [hr]
      unfold TechnicalIndicators.rsiCell
      rw [if_pos hl0, if_neg (ne_of_gt hg0)]
    · intro hg0 hl0
      rw [hr]
      unfold TechnicalIndicators.rsiCell
      rw [if_neg (ne_of_gt hl0)]
      norm_num [hg0]

/-- Witness for `c3_rsi_bounded` on the 2-bar rising series `[1, 2]` with the
default period 14: the second RSI cell is exactly 100 (zero smoothed loss,
positive smoothed gain) and in particular bounded. -/
theorem c3_rsi_bounded_witness :
    (1 : ℕ) ≤ 14 ∧
    ((TechnicalIndicators.calculate_rsi [1, 2] 14)[1]? = some (some (100 : ℚ))) ∧
    (0 ≤ (100 : ℚ) ∧ (100 : ℚ) ≤ 100) := by
  have hg : (TechnicalIndicators.avg_gain [1, 2] 14)[1]? = some (1 / 14) := by
    norm_num [TechnicalIndicators.avg_gain, TechnicalIndicators.gains,
      TechnicalIndicators.ewmRec, TechnicalIndicators.ewmFrom]
  have hl : (TechnicalIndicators.avg_loss [1, 2] 14)[1]? = some 0 := by
    norm_num [TechnicalIndicators.avg_loss, TechnicalIndicators.losses,
      TechnicalIndicators.ewmRec, TechnicalIndicators.ewmFrom]
  have h100 := ((c3_rsi_bounded [1, 2] 14 (by norm_num)).2 1 (1 / 14) 0 hg hl).1
    rfl (by norm_num)
  exact ⟨by norm_num, h100,
    (c3_rsi_bounded [1, 2] 14 (by norm_num)).1 1 100 h100⟩

/-! ## C8: Bollinger band algebra -/

/-- C8 (amended, FInMasterv2 part): for `TechnicalIndicators.
calculate_bollinger_bands` the middle band is literally `calculate_sma` of the
same period, and wherever both outer bands are present the band spread is
`2 · k · rolling population std` (the square root of the `ddof=0` rolling
variance over the same window). -/
theorem c8_bollinger_ti (data : List ℚ) (p : ℕ) (k : ℚ) (i : ℕ) (u l : ℝ)
    (hu : (TechnicalIndicators.calculate_bollinger_upper data p k)[i]? = some (some u))
    (hl : (TechnicalIndicators.calculate_bollinger_lower data p k)[i]? = some (some l)) :
    (TechnicalIndicators.calculate_bollinger_bands data p k).2.1 =
      TechnicalIndicators.calculate_sma data p ∧
    ∃ v : ℚ, (TechnicalIndicators.rollingPopVar data p)[i]? = some (some v) ∧
      u - l = 2 * (k : ℝ) * Real.sqrt (v : ℝ) := by
  refine ⟨rfl, ?_⟩
  unfold TechnicalIndicators.calculate_bollinger_upper at hu
  unfold TechnicalIndicators.calculate_bollinger_lower at hl
  obtain ⟨mu, vu, hmu, hvu, hfu⟩ := getElem?_zipWith_some hu
  obtain ⟨ml, vl, hml, hvl, hfl⟩ := getElem?_zipWith_some hl
  rw [hmu] at hml
  rw [hvu] at hvl
  injection hml with hml
  injection hvl with hvl
  subst hml hvl
  cases mu with
  | none => exact absurd hfu (by simp)
  | some m =>
    cases vu with
    | none => exact absurd hfu (by simp)
    | some v =>
      refine ⟨v, hvu, ?_⟩
      simp only at hfu hfl
      injection hfu with hfu
      injection hfl with hfl
      rw [← hfu, ← hfl]
      ring

/-- Witness for `c8_bollinger_ti` on the series `[0, 2]` with period 2 and
`k = 2`: at row 1 the bands are `1 ± 2·√1`, i.e. 3 and −1, and the spread is
`4 = 2·2·√1`. -/
theorem c8_bollinger_ti_witness :
    ((TechnicalIndicators.calculate_bollinger_upper [0, 2] 2 2)[1]? =
      some (some (3 : ℝ))) ∧
    ((TechnicalIndicators.calculate_bollinger_lower [0, 2] 2 2)[1]? =
      some (some (-1 : ℝ))) ∧
    ((TechnicalIndicators.calculate_bollinger_bands [0, 2] 2 2).2.1 =
      TechnicalIndicators.calculate_sma [0, 2] 2 ∧
    ∃ v : ℚ, (TechnicalIndicators.rollingPopVar [0, 2] 2)[1]? = some (some v) ∧
      (3 : ℝ) - (-1) = 2 * ((2 : ℚ) : ℝ) * Real.sqrt (v : ℝ)) := by
  have hsma : TechnicalIndicators.calculate_sma [0, 2] 2 = [none, some 1] := by
    unfold TechnicalIndicators.calculate_sma
    norm_num [List.range_succ, listMean]
  have hvar : TechnicalIndicators.rollingPopVar [0, 2] 2 = [none, some 1] := by
    unfold TechnicalIndicators.rollingPopVar TechnicalIndicators.popVar
    norm_num [List.range_succ, listMean]
  have hu : (TechnicalIndicators.calculate_bollinger_upper [0, 2] 2 2)[1]? =
      some (some (3 : ℝ)) := by
    unfold TechnicalIndicators.calculate_bollinger_upper
    rw [hsma, hvar]
    norm_num [Real.sqrt_one]
  have hl : (TechnicalIndicators.calculate_bollinger_lower [0, 2] 2 2)[1]? =
      some (some (-1 : ℝ)) := by
    unfold TechnicalIndicators.calculate_bollinger_lower
    rw [hsma, hvar]
    norm_num [Real.sqrt_one]
  exact ⟨hu, hl, c8_bollinger_ti [0, 2] 2 2 1 3 (-1) hu hl⟩

/-- C8 (counterexample): the stock_analysis
`IndicatorCalculator.calculate_bollinger_bands` computes its half-width from
pandas `std()` with the default `ddof=1` (sample standard deviation).  On the
series `[0, 2]` with window 2 and `k = 2`, at row 1 the sample variance is 2
while the population variance is 1, so the band spread is `4·√2`, not the
`2·k·(population std) = 4` required by the claim. -/
theorem c8_counterexample :
    ((IndicatorCalculator.calculate_bollinger_bands [0, 2] 2 2).1)[1]? =
      some (some ((1 : ℝ) + 2 * Real.sqrt 2)) ∧
    ((IndicatorCalculator.calculate_bollinger_bands [0, 2] 2 2).2.2)[1]? =
      some (some ((1 : ℝ) - 2 * Real.sqrt 2)) ∧
    (TechnicalIndicators.rollingPopVar [0, 2] 2)[1]? = some (some (1 : ℚ)) ∧
    ((1 : ℝ) + 2 * Real.sqrt 2) - ((1 : ℝ) - 2 * Real.sqrt 2) ≠
      2 * 2 * Real.sqrt ((1 : ℚ) : ℝ) := by
  have hw : (IndicatorCalculator.get_adaptive_window 2 2 "bb_period").1 = 2 := by decide
  have hmid : IndicatorCalculator.rollingMeanMinp1 [0, 2] 2 = [some 0, some 1] := by
    unfold IndicatorCalculator.rollingMeanMinp1
    norm_num [List.range_succ, listMean]
  have hvar : IndicatorCalculator.rollingSampleVarMinp1 [0, 2] 2 = [none, some 2] := by
    unfold IndicatorCalculator.rollingSampleVarMinp1
    norm_num [List.range_succ, listMean]
  have hsqrt2 : (1 : ℝ) < Real.sqrt 2 := by
    rw [show (1 : ℝ) = Real.sqrt 1 from Real.sqrt_one.symm]
    exact Real.sqrt_lt_sqrt (by norm_num) (by norm_num)
  refine ⟨?_, ?_, ?_, ?_⟩
  · unfold IndicatorCalculator.calculate_bollinger_bands
    rw [show ([0, 2] : List ℚ).length = 2 from rfl, hw]
    simp only [hmid, hvar]
    norm_num
  · unfold IndicatorCalculator.calculate_bollinger_bands
    rw [show ([0, 2] : List ℚ).length = 2 from rfl, hw]
    simp only [hmid, hvar]
    norm_num
  · unfold TechnicalIndicators.rollingPopVar TechnicalIndicators.popVar
    norm_num [List.range_succ, listMean]
  · rw [show ((1 : ℚ) : ℝ) = (1 : ℝ) by norm_num, Real.sqrt_one]
    intro h
    nlinarith

/-! ## Crossover-history detectors

From `MovingAverageCrossoverModel.find_crossovers`
(`src/FInMasterv2/src/models/ma_crossover.py`) and
`MACDMomentumModel.find_crossovers`
(`src/FInMasterv2/src/models/macd_momentum.py`).  A row's timestamp is its
position; `series.shift(1)` at row `i` is the cell at `i−1` (NaN at row 0). -/

/-- One crossover event (`{"timestamp": ..., "type": ...}`). -/
structure Crossover where
  timestamp : ℕ
  type : String
  deriving DecidableEq

/-- `crossovers[-5:] if len(crossovers) > 5 else crossovers`. -/
def lastFive (l : List Crossover) : List Crossover :=
  if 5 < l.length then l.drop (l.length - 5) else l

theorem lastFive_length_le (l : List Crossover) : (lastFive l).length ≤ 5 := by
  unfold lastFive
  split_ifs with h
  · rw [List.length_drop]; omega
  · omega

theorem lastFive_sublist (l : List Crossover) : (lastFive l).Sublist l := by
  unfold lastFive
  split_ifs with h
  · exact List.drop_sublist _ _
  · exact List.Sublist.refl l

/-- Value of a series cell at a row, `none` when out of range or NaN. -/
def cellAt (s : List Cell) (i : ℕ) : Option ℚ := (s[i]?).bind id

namespace MovingAverageCrossoverModel

/-- The rows `find_crossovers` examines: both series and both shifted series
non-missing (`fast.notna() & slow.notna() & shifted_fast.notna() &
shifted_slow.notna()`; the shift is NaN at row 0). -/
def validIdx (fast slow : List Cell) : List ℕ :=
  (List.range fast.length).filter fun i =>
    decide (1 ≤ i) && (cellAt fast i).isSome && (cellAt slow i).isSome &&
      (cellAt fast (i - 1)).isSome && (cellAt slow (i - 1)).isSome

/-- `(fast > slow) & (shifted_fast <= shifted_slow)` at a row. -/
def bullishAt (fast slow : List Cell) (i : ℕ) : Bool :=
  match cellAt fast i, cellAt slow i, cellAt fast (i - 1), cellAt slow (i - 1) with
  | some f, some s, some pf, some ps => decide (f > s) && decide (pf ≤ ps)
  | _, _, _, _ => false

/-- `(fast < slow) & (shifted_fast >= shifted_slow)` at a row. -/
def bearishAt (fast slow : List Cell) (i : ℕ) : Bool :=
  match cellAt fast i, cellAt slow i, cellAt fast (i - 1), cellAt slow (i - 1) with
  | some f, some s, some pf, some ps => decide (f < s) && decide (pf ≥ ps)
  | _, _, _, _ => false

/-- The full event list before truncation: all Golden-Cross rows in
chronological order, then all Death-Cross rows in chronological order —
the two `for` loops append bullish events first, then bearish events. -/
def allCrossovers (fast slow : List Cell) : List Crossover :=
  (((validIdx fast slow).filter (bullishAt fast slow)).map
      fun i => ⟨i, "Golden Cross"⟩) ++
    (((validIdx fast slow).filter (bearishAt fast slow)).map
      fun i => ⟨i, "Death Cross"⟩)

/-- `MovingAverageCrossoverModel.find_crossovers`: the sort-by-timestamp line
in the source is commented out, so the concatenated bullish-then-bearish list
is truncated to its last 5 entries as-is. -/
def find_crossovers (fast slow : List Cell) : List Crossover :=
  if (validIdx fast slow).length < 2 then []
  else lastFive (allCrossovers fast slow)

end MovingAverageCrossoverModel

namespace MACDMomentumModel

/-- `(macd > 0) & (shifted_macd <= 0)` at a row. -/
def bullishZeroAt (macd : List Cell) (i : ℕ) : Bool :=
  match cellAt macd i, cellAt macd (i - 1) with
  | some m, some pm => decide (m > 0) && decide (pm ≤ 0)
  | _, _ => false

/-- `(macd < 0) & (shifted_macd >= 0)` at a row. -/
def bearishZeroAt (macd : List Cell) (i : ℕ) : Bool :=
  match cellAt macd i, cellAt macd (i - 1) with
  | some m, some pm => decide (m < 0) && decide (pm ≥ 0)
  | _, _ => false

/-- Signal-line crossover events (bullish rows then bearish rows), empty when
fewer than 2 rows have all four cells present. -/
def sigEvents (macd signal : List Cell) : List Crossover :=
  let valid := MovingAverageCrossoverModel.validIdx macd signal
  if valid.length < 2 then []
  else
    ((valid.filter (MovingAverageCrossoverModel.bullishAt macd signal)).map
        fun i => ⟨i, "Bullish Signal Crossover"⟩) ++
      ((valid.filter (MovingAverageCrossoverModel.bearishAt macd signal)).map
        fun i => ⟨i, "Bearish Signal Crossover"⟩)

/-- Rows where the MACD line and its shift are both present. -/
def validZeroIdx (macd : List Cell) : List ℕ :=
  (List.range macd.length).filter fun i =>
    decide (1 ≤ i) && (cellAt macd i).isSome && (cellAt macd (i - 1)).isSome

/-- Zero-line crossover events (bullish rows then bearish rows). -/
def zeroEvents (macd : List Cell) : List Crossover :=
  if (validZeroIdx macd).length < 2 then []
  else
    (((validZeroIdx macd).filter (bullishZeroAt macd)).map
        fun i => ⟨i, "Bullish Zero Crossover"⟩) ++
      (((validZeroIdx macd).filter (bearishZeroAt macd)).map
        fun i => ⟨i, "Bearish Zero Crossover"⟩)

/-- `MACDMomentumModel.find_crossovers`: concatenate signal-line and zero-line
events, `sort(key=timestamp)` (Python's stable sort; `isoformat()` order is
chronological order), keep the last 5. -/
def find_crossovers (macd signal : List Cell) : List Crossover :=
  lastFive ((sigEvents macd signal ++ zeroEvents macd).mergeSort
    fun a b => decide (a.timestamp ≤ b.timestamp))

end MACDMomentumModel

/-- C5 (counterexample): on `fast = [2, 0, 2]`, `slow = [1, 1, 1]` the MA
detector finds a Death Cross at row 1 and a Golden Cross at row 2, but returns
`[Golden@2, Death@1]` — bullish events are appended before bearish ones and
the sort line is commented out, so the result is not timestamp-ordered. -/
theorem c5_counterexample :
    MovingAverageCrossoverModel.find_crossovers
        [some 2, some 0, some 2] [some 1, some 1, some 1] =
      [⟨2, "Golden Cross"⟩, ⟨1, "Death Cross"⟩] ∧
    ¬ (MovingAverageCrossoverModel.find_crossovers
        [some 2, some 0, some 2] [some 1, some 1, some 1]).Sorted
      (fun a b => a.timestamp ≤ b.timestamp) := by
  constructor
  · decide
  · decide

/-- C5 (amended): both detectors return at most 5 events, and every returned
event really is a flagged sign change of the tracked difference at its row
(and conversely every flagged sign-change row enters the pre-truncation event
list); the MACD detector's output is timestamp-ordered (it sorts before
truncating), while the MA detector's output is the bullish-then-bearish
concatenation truncated to its last 5 entries, which — as the counterexample
shows — need be neither timestamp-ordered nor the 5 most recent events. -/
theorem c5_crossover_detectors :
    (∀ fast slow : List Cell,
      (MovingAverageCrossoverModel.find_crossovers fast slow).length ≤ 5) ∧
    (∀ (fast slow : List Cell) (e : Crossover),
      e ∈ MovingAverageCrossoverModel.find_crossovers fast slow →
      (e.type = "Golden Cross" ∧
        MovingAverageCrossoverModel.bullishAt fast slow e.timestamp = true) ∨
      (e.type = "Death Cross" ∧
        MovingAverageCrossoverModel.bearishAt fast slow e.timestamp = true)) ∧
    (∀ (fast slow : List Cell) (i : ℕ),
      i ∈ MovingAverageCrossoverModel.validIdx fast slow →
      MovingAverageCrossoverModel.bullishAt fast slow i = true →
      Crossover.mk i "Golden Cross" ∈
        MovingAverageCrossoverModel.allCrossovers fast slow) ∧
    (∀ macd sig : List Cell,
      (MACDMomentumModel.find_crossovers macd sig).length ≤ 5) ∧
    (∀ macd sig : List Cell,
      (MACDMomentumModel.find_crossovers macd sig).Sorted
        fun a b => a.timestamp ≤ b.timestamp) := by
  refine ⟨?_, ?_, ?_, ?_, ?_⟩
  · intro fast slow
    unfold MovingAverageCrossoverModel.find_crossovers
    split_ifs
    · simp
    · exact lastFive_length_le _
  · intro fast slow e he
    unfold MovingAverageCrossoverModel.find_crossovers at he
    split_ifs at he
    · simp at he
    · have hmem := (lastFive_sublist _).subset he
      unfold MovingAverageCrossoverModel.allCrossovers at hmem
      rcases List.mem_append.mp hmem with h | h
      · obtain ⟨i, hi, rfl⟩ := List.mem_map.mp h
        exact Or.inl ⟨rfl, (List.mem_filter.mp hi).2⟩
      · obtain ⟨i, hi, rfl⟩ := List.mem_map.mp h
        exact Or.inr ⟨rfl, (List.mem_filter.mp hi).2⟩
  · intro fast slow i hvi hb
    unfold MovingAverageCrossoverModel.allCrossovers
    exact List.mem_append.mpr
      (Or.inl (List.mem_map.mpr ⟨i, List.mem_filter.mpr ⟨hvi, hb⟩, rfl⟩))
  · intro macd sig
    exact lastFive_length_le _
  · intro macd sig
    unfold MACDMomentumModel.find_crossovers
    have hs := @List.sorted_mergeSort Crossover
      (fun a b => decide (a.timestamp ≤ b.timestamp))
      (fun a b c hab hbc => by
        simp only [decide_eq_true_eq] at *; omega)
      (fun a b => by
        simp only [Bool.or_eq_true, decide_eq_true_eq]; omega)
      (MACDMomentumModel.sigEvents macd sig ++ MACDMomentumModel.zeroEvents macd)
    have hp : (MACDMomentumModel.sigEvents macd sig ++
        MACDMomentumModel.zeroEvents macd).mergeSort
          (fun a b => decide (a.timestamp ≤ b.timestamp)) |>.Pairwise
          (fun a b : Crossover => a.timestamp ≤ b.timestamp) :=
      hs.imp (fun h => by simpa using h)
    exact hp.sublist (lastFive_sublist _)

/-- Witness for `c5_crossover_detectors`, instantiating the membership-bearing
parts on the counterexample series `fast = [2, 0, 2]`, `slow = [1, 1, 1]`. -/
theorem c5_crossover_detectors_witness :
    ((Crossover.mk 2 "Golden Cross").type = "Golden Cross" ∧
        MovingAverageCrossoverModel.bullishAt [some 2, some 0, some 2]
          [some 1, some 1, some 1] (Crossover.mk 2 "Golden Cross").timestamp = true) ∨
      ((Crossover.mk 2 "Golden Cross").type = "Death Cross" ∧
        MovingAverageCrossoverModel.bearishAt [some 2, some 0, some 2]
          [some 1, some 1, some 1] (Crossover.mk 2 "Golden Cross").timestamp = true) :=
  c5_crossover_detectors.2.1 [some 2, some 0, some 2] [some 1, some 1, some 1]
    (Crossover.mk 2 "Golden Cross") (by decide)

/-! ## Trading models

Common envelope of the four `analyze` methods.  The model-specific payload
fields of the returned dictionaries (`keyLevels`, `technicalData`,
`rsiAnalysis`, `macdAnalysis`, `bollingerAnalysis`, support/resistance
strings) are not read by any claim and are elided; `signal`, `confidence` and
`error` are embedded faithfully. -/

/-- The view of a `StockData` object a model reads: row count of the
indicator DataFrame, its named indicator columns, the closes and volumes. -/
structure StockDF where
  nRows : ℕ
  cols : List (String × List Cell)
  closes : List Cell
  volumes : List Cell

/-- `df[name]`: `none` models the `KeyError` branch. -/
def StockDF.col (sd : StockDF) (name : String) : Option (List Cell) :=
  (sd.cols.find? fun p => p.1 == name).map Prod.snd

/-- Common envelope of a model's returned dictionary. -/
structure ModelResult where
  model : String
  signal : String
  confidence : ℤ
  reasoning : List String
  error : Option String

/-- `f"Insufficient data points ({len(df)} available). Need at least
{required} periods for model logic."` -/
def insufficientDataMsg (available required : ℕ) : String :=
  "Insufficient data points (" ++ toString available ++
    " available). Need at least " ++ toString required ++ " periods for model logic."

/-- `f"Required indicator missing: {e}. Calculation may have failed or been
skipped."` -/
def indicatorMissingMsg (key : String) : String :=
  "Required indicator missing: " ++ key ++
    ". Calculation may have failed or been skipped."

theorem insufficientDataMsg_ne_empty (a r : ℕ) : insufficientDataMsg a r ≠ "" := by
  unfold insufficientDataMsg
  intro h
  have hlen := congrArg String.length h
  simp only [String.length_append] at hlen
  have h26 : ("Insufficient data points (" : String).length = 26 := by decide
  have h0 : ("" : String).length = 0 := by decide
  omega

namespace MovingAverageCrossoverModel

/-- `f"MA Crossover ({fast_period}/{slow_period})"`. -/
def name (fast_period slow_period : ℕ) : String :=
  "MA Crossover (" ++ toString fast_period ++ "/" ++ toString slow_period ++ ")"

/-- The Golden Cross and Death Cross decision tree over the latest and
previous MA values and the latest close. -/
def maCascade (current_fast current_slow prev_fast prev_slow current_price : Option ℚ) :
    String × ℤ :=
  match current_fast, current_slow with
  | some cf, some cs =>
    (match prev_fast, prev_slow with
     | some pf, some ps =>
        if cf > cs ∧ pf ≤ ps then ("BUY", 85)
        else if cf < cs ∧ pf ≥ ps then ("SELL", 85)
        else if cf > cs then
          ((match current_price with
            | some p => if p > cf then "BUY" else "WAIT"
            | none => "WAIT"), 60)
        else if cf < cs then
          ((match current_price with
            | some p => if p < cf then "SELL" else "WAIT"
            | none => "WAIT"), 60)
        else ("HOLD", 20)
     | _, _ =>
        if cf > cs then
          ((match current_price with
            | some p => if p > cf then "BUY" else "WAIT"
            | none => "WAIT"), 50)
        else if cf < cs then
          ((match current_price with
            | some p => if p < cf then "SELL" else "WAIT"
            | none => "WAIT"), 50)
        else ("HOLD", 20))
  | _, _ => ("HOLD", 10)

/-- `abs(current_fast - current_slow) / current_slow * 100`, 0 when either MA
is unavailable or the slow MA is 0. -/
def maSeparationPct (current_fast current_slow : Option ℚ) : ℚ :=
  match current_fast, current_slow with
  | some cf, some cs => if cs ≠ 0 then |cf - cs| / cs * 100 else 0
  | _, _ => 0

/-- The trend-strength confidence bonus tiers. -/
def separationBonus (sep : ℚ) : ℤ :=
  if sep > 10 then 15 else if sep > 5 then 10 else if sep > 2 then 5 else 0

/-- `f"Insufficient recent calculated moving averages ..."`. -/
def insufficientMAMsg (a b : ℕ) : String :=
  "Insufficient recent calculated moving averages (" ++ toString a ++ "/" ++
    toString b ++
    " valid points available). Need at least 2 valid points for crossover check."

/-- `MovingAverageCrossoverModel.analyze`. -/
def analyze (fast_period slow_period : ℕ) (sd : StockDF) : ModelResult :=
  let required := max fast_period slow_period
  if sd.nRows < required then
    { model := name fast_period slow_period, signal := "HOLD", confidence := 0,
      reasoning := [], error := some (insufficientDataMsg sd.nRows required) }
  else
    match sd.col ("SMA_" ++ toString fast_period),
        sd.col ("SMA_" ++ toString slow_period) with
    | some fastS, some slowS =>
      if validCount fastS < 2 ∨ validCount slowS < 2 then
        { model := name fast_period slow_period, signal := "HOLD", confidence := 0,
          reasoning := [],
          error := some (insufficientMAMsg (validCount fastS) (validCount slowS)) }
      else
        let r := maCascade (latestValue fastS) (latestValue slowS)
          (prevValue fastS) (prevValue slowS) (latestValue sd.closes)
        let sep := maSeparationPct (latestValue fastS) (latestValue slowS)
        { model := name fast_period slow_period, signal := r.1,
          confidence := max 0 (min (r.2 + separationBonus sep) 100),
          reasoning := [], error := none }
    | none, _ =>
      { model := name fast_period slow_period, signal := "HOLD", confidence := 0,
        reasoning := [],
        error := some (indicatorMissingMsg ("SMA_" ++ toString fast_period)) }
    | _, none =>
      { model := name fast_period slow_period, signal := "HOLD", confidence := 0,
        reasoning := [],
        error := some (indicatorMissingMsg ("SMA_" ++ toString slow_period)) }

end MovingAverageCrossoverModel

/-- A `{"type": ..., "strength": ...}` dictionary, used both by the RSI
divergence detector and the Bollinger band-walk detector. -/
structure Finding where
  type : String
  strength : ℤ
  deriving DecidableEq

namespace RSIMeanReversionModel

/-- `f"RSI Mean Reversion ({rsi_period})"`. -/
def name (rsi_period : ℕ) : String :=
  "RSI Mean Reversion (" ++ toString rsi_period ++ ")"

/-- Rows where a series equals its centered 3-row rolling minimum: pandas
leaves that rolling minimum NaN at the first and last row (incomplete
windows) and `x == NaN` is false, so these are the interior rows whose value
is ≤ both neighbours.  (The source's subsequent NaN filtering of these rows
is a no-op here because the caller passes `dropna()`d series.) -/
def localMinIdx (xs : List ℚ) : List ℕ :=
  (List.range xs.length).filter fun i =>
    decide (1 ≤ i) && decide (i + 1 < xs.length) &&
      (match xs[i]?, xs[i - 1]?, xs[i + 1]? with
       | some x, some a, some b => decide (x ≤ a) && decide (x ≤ b)
       | _, _, _ => false)

/-- Rows equal to the centered 3-row rolling maximum. -/
def localMaxIdx (xs : List ℚ) : List ℕ :=
  (List.range xs.length).filter fun i =>
    decide (1 ≤ i) && decide (i + 1 < xs.length) &&
      (match xs[i]?, xs[i - 1]?, xs[i + 1]? with
       | some x, some a, some b => decide (a ≤ x) && decide (b ≤ x)
       | _, _, _ => false)

/-- The second-to-last and last entries of an index list (the two most recent
significant extrema), when it has at least two entries. -/
def lastTwo (l : List ℕ) : Option (ℕ × ℕ) :=
  if 2 ≤ l.length then
    match l[l.length - 2]?, l.getLast? with
    | some b, some a => some (b, a)
    | _, _ => none
  else none

/-- Price making a lower low while RSI makes a higher low, over the two most
recent local minima of each (with the source's index-order sanity check). -/
def bullishDivergence (prices rsi_values : List ℚ) : Bool :=
  match lastTwo (localMinIdx prices), lastTwo (localMinIdx rsi_values) with
  | some (slp, lp), some (slr, lr) =>
    decide (slp < lp) && decide (slr < lr) &&
      (match prices[lp]?, prices[slp]?, rsi_values[lr]?, rsi_values[slr]? with
       | some a, some b, some c, some d => decide (a < b) && decide (c > d)
       | _, _, _, _ => false)
  | _, _ => false

/-- Price making a higher high while RSI makes a lower high. -/
def bearishDivergence (prices rsi_values : List ℚ) : Bool :=
  match lastTwo (localMaxIdx prices), lastTwo (localMaxIdx rsi_values) with
  | some (slp, lp), some (slr, lr) =>
    decide (slp < lp) && decide (slr < lr) &&
      (match prices[lp]?, prices[slp]?, rsi_values[lr]?, rsi_values[slr]? with
       | some a, some b, some c, some d => decide (a > b) && decide (c < d)
       | _, _, _, _ => false)
  | _, _ => false

/-- `RSIMeanReversionModel.detect_divergence`: every exit returns one of the
three literal dictionaries of the source. -/
def detect_divergence (prices rsi_values : List ℚ) : Finding :=
  if prices.length < 5 ∨ rsi_values.length < 5 then ⟨"None", 0⟩
  else if bullishDivergence prices rsi_values then ⟨"Potential Bullish", 15⟩
  else if bearishDivergence prices rsi_values then ⟨"Potential Bearish", 15⟩
  else ⟨"None", 0⟩

/-- The RSI threshold rule cascade: oversold/overbought with the
turning-up/turning-down momentum bonus, the neutral band bonus. -/
def rsiThresholdRule (oversold overbought : ℕ) (current_rsi prev_rsi : Option ℚ) :
    String × ℤ :=
  match current_rsi with
  | some r =>
    if r < (oversold : ℚ) then
      ("BUY", 40 + (match prev_rsi with
        | some p => if r > p then 20 else 0
        | none => 0))
    else if r > (overbought : ℚ) then
      ("SELL", 40 + (match prev_rsi with
        | some p => if r < p then 20 else 0
        | none => 0))
    else if 40 ≤ r ∧ r ≤ 60 then ("HOLD", 10)
    else ("HOLD", 0)
  | none => ("HOLD", 0)

/-- Price-vs-SMA20 confirmation: adds 15 confidence when the price sits on
the side of the 20-day SMA matching the current signal; never changes the
signal. -/
def smaConfirmRule (sig : String) (conf : ℤ) (current_price current_sma20 : Option ℚ) : ℤ :=
  match current_price, current_sma20 with
  | some p, some m =>
    if p > m then (if sig = "BUY" then conf + 15 else conf)
    else (if sig = "SELL" then conf + 15 else conf)
  | _, _ => conf

/-- The divergence-application step of `analyze` (lines 173–182 of the
source): add the divergence strength to the confidence, and promote the
signal only when the divergence type is the bare `"Bullish"`/`"Bearish"`
string AND its strength strictly exceeds 15. -/
def applyDivergence (sig : String) (conf : ℤ) (d : Finding) : String × ℤ :=
  if d.type ≠ "None" then
    let conf1 := conf + d.strength
    let sig1 := if d.type = "Bullish" ∧ sig ≠ "SELL" ∧ d.strength > 15 then "BUY" else sig
    let sig2 := if d.type = "Bearish" ∧ sig1 ≠ "BUY" ∧ d.strength > 15 then "SELL" else sig1
    (sig2, conf1)
  else (sig, conf)

/-- `f"Insufficient recent indicator data for analysis ..."`. -/
def insufficientRSIMsg (a b : ℕ) : String :=
  "Insufficient recent indicator data for analysis (" ++ toString a ++
    " valid RSI, " ++ toString b ++
    " valid SMA20). Need at least 2 valid RSI and 1 valid SMA20."

/-- The divergence finding computed inside `analyze`: slice the last
`max(rsi_period, 20)` rows (the RSI slice is `None` when the series is
shorter than the lookback), drop NaNs, and run the detector only with at
least 5 valid points on each side. -/
def divergenceOf (rsi_period : ℕ) (closes : List Cell) (rsiS : List Cell) : Finding :=
  let lookback := max rsi_period 20
  let recent_closes := if lookback ≤ closes.length then
    closes.drop (closes.length - lookback) else closes
  let recent_rsi : Option (List Cell) := if lookback ≤ rsiS.length then
    some (rsiS.drop (rsiS.length - lookback)) else none
  match recent_rsi with
  | some rr =>
    if recent_closes ≠ [] ∧ rr ≠ [] then
      let vc := recent_closes.filterMap id
      let vr := rr.filterMap id
      if 5 ≤ vc.length ∧ 5 ≤ vr.length then detect_divergence vc vr
      else ⟨"None", 0⟩
    else ⟨"None", 0⟩
  | none => ⟨"None", 0⟩

/-- `RSIMeanReversionModel.analyze`. -/
def analyze (rsi_period oversold_level overbought_level : ℕ) (sd : StockDF) : ModelResult :=
  let required := rsi_period + 1
  if sd.nRows < required then
    { model := name rsi_period, signal := "HOLD", confidence := 0,
      reasoning := ["Insufficient data points for model logic."],
      error := some (insufficientDataMsg sd.nRows required) }
  else
    match sd.col ("RSI_" ++ toString rsi_period), sd.col "SMA_20" with
    | some rsiS, some sma20S =>
      if validCount rsiS < 2 ∨ validCount sma20S < 1 then
        { model := name rsi_period, signal := "HOLD", confidence := 0,
          reasoning := ["Insufficient recent indicator data."],
          error := some (insufficientRSIMsg (validCount rsiS) (validCount sma20S)) }
      else
        let r1 := rsiThresholdRule oversold_level overbought_level
          (latestValue rsiS) (prevValue rsiS)
        let c2 := smaConfirmRule r1.1 r1.2 (latestValue sd.closes) (latestValue sma20S)
        let d := divergenceOf rsi_period sd.closes rsiS
        let r3 := applyDivergence r1.1 c2 d
        { model := name rsi_period, signal := r3.1,
          confidence := max 0 (min r3.2 100),
          reasoning := [], error := none }
    | none, _ =>
      { model := name rsi_period, signal := "HOLD", confidence := 0,
        reasoning := ["Indicator Missing."],
        error := some (indicatorMissingMsg ("RSI_" ++ toString rsi_period)) }
    | _, none =>
      { model := name rsi_period, signal := "HOLD", confidence := 0,
        reasoning := ["Indicator Missing."],
        error := some (indicatorMissingMsg "SMA_20") }

end RSIMeanReversionModel

namespace MACDMomentumModel

/-- `f"MACD Momentum ({fast_period},{slow_period},{signal_period})"`. -/
def name (fast_period slow_period signal_period : ℕ) : String :=
  "MACD Momentum (" ++ toString fast_period ++ "," ++ toString slow_period ++
    "," ++ toString signal_period ++ ")"

/-- MACD line vs signal line: `current_macd > current_signal` is bullish,
anything else — including exact equality — falls into the bearish `else`
branch; both sides add 25 confidence. -/
def lineRule (sig : String) (conf : ℤ) (current_macd current_signal : Option ℚ) :
    String × ℤ :=
  match current_macd, current_signal with
  | some m, some s =>
    if m > s then ((if sig ≠ "SELL" then "BUY" else sig), conf + 25)
    else ((if sig ≠ "BUY" then "SELL" else sig), conf + 25)
  | _, _ => (sig, conf)

/-- Histogram momentum: expanding in the direction of its sign is +20,
contracting is −10; never touches the signal. -/
def histogramRule (conf : ℤ) (current_histogram prev_histogram : Option ℚ) : ℤ :=
  match current_histogram, prev_histogram with
  | some c, some p =>
    if c > 0 ∧ c > p then conf + 20
    else if c < 0 ∧ c < p then conf + 20
    else if c > 0 ∧ c < p then conf - 10
    else if c < 0 ∧ c > p then conf - 10
    else conf
  | _, _ => conf

/-- Zero-line crossover: +30, promoting only a HOLD/WAIT signal. -/
def zeroCrossRule (sig : String) (conf : ℤ) (current_macd prev_macd : Option ℚ) :
    String × ℤ :=
  match current_macd, prev_macd with
  | some m, some p =>
    if m > 0 ∧ p ≤ 0 then
      ((if sig = "HOLD" ∨ sig = "WAIT" then "BUY" else sig), conf + 30)
    else if m < 0 ∧ p ≥ 0 then
      ((if sig = "HOLD" ∨ sig = "WAIT" then "SELL" else sig), conf + 30)
    else (sig, conf)
  | _, _ => (sig, conf)

/-- Signal-line crossover: +25, promoting only a HOLD/WAIT signal. -/
def signalCrossRule (sig : String) (conf : ℤ)
    (current_macd current_signal prev_macd prev_signal : Option ℚ) : String × ℤ :=
  match current_macd, current_signal, prev_macd, prev_signal with
  | some m, some s, some pm, some ps =>
    if m > s ∧ pm ≤ ps then
      ((if sig = "HOLD" ∨ sig = "WAIT" then "BUY" else sig), conf + 25)
    else if m < s ∧ pm ≥ ps then
      ((if sig = "HOLD" ∨ sig = "WAIT" then "SELL" else sig), conf + 25)
    else (sig, conf)
  | _, _, _, _ => (sig, conf)

/-- The full MACD rule cascade of `analyze`, with the final `[0, 100]` clamp. -/
def cascade (current_macd current_signal current_histogram
    prev_macd prev_signal prev_histogram : Option ℚ) : String × ℤ :=
  let r1 := lineRule "HOLD" 0 current_macd current_signal
  let c2 := histogramRule r1.2 current_histogram prev_histogram
  let r3 := zeroCrossRule r1.1 c2 current_macd prev_macd
  let r4 := signalCrossRule r3.1 r3.2 current_macd current_signal prev_macd prev_signal
  (r4.1, max 0 (min r4.2 100))

/-- `f"Insufficient recent indicator data for analysis ..."`. -/
def insufficientMACDMsg (a b c : ℕ) : String :=
  "Insufficient recent indicator data for analysis (" ++ toString a ++
    " valid MACD, " ++ toString b ++ " valid Signal, " ++ toString c ++
    " valid Histogram). Need at least 2 valid points for each."

/-- `MACDMomentumModel.analyze`. -/
def analyze (fast_period slow_period signal_period : ℕ) (sd : StockDF) : ModelResult :=
  let required := max slow_period fast_period + signal_period - 1
  if sd.nRows < required then
    { model := name fast_period slow_period signal_period, signal := "HOLD",
      confidence := 0,
      reasoning := ["Insufficient data points for model logic."],
      error := some (insufficientDataMsg sd.nRows required) }
  else
    match sd.col "MACD_macd_line", sd.col "MACD_signal_line", sd.col "MACD_histogram" with
    | some mS, some sS, some hS =>
      if validCount mS < 2 ∨ validCount sS < 2 ∨ validCount hS < 2 then
        { model := name fast_period slow_period signal_period, signal := "HOLD",
          confidence := 0,
          reasoning := ["Insufficient recent indicator data."],
          error := some (insufficientMACDMsg (validCount mS) (validCount sS)
            (validCount hS)) }
      else
        let r := cascade (latestValue mS) (latestValue sS) (latestValue hS)
          (prevValue mS) (prevValue sS) (prevValue hS)
        { model := name fast_period slow_period signal_period, signal := r.1,
          confidence := r.2, reasoning := [], error := none }
    | none, _, _ =>
      { model := name fast_period slow_period signal_period, signal := "HOLD",
        confidence := 0, reasoning := ["Indicator Missing."],
        error := some (indicatorMissingMsg "MACD_macd_line") }
    | _, none, _ =>
      { model := name fast_period slow_period signal_period, signal := "HOLD",
        confidence := 0, reasoning := ["Indicator Missing."],
        error := some (indicatorMissingMsg "MACD_signal_line") }
    | _, _, none =>
      { model := name fast_period slow_period signal_period, signal := "HOLD",
        confidence := 0, reasoning := ["Indicator Missing."],
        error := some (indicatorMissingMsg "MACD_histogram") }

end MACDMomentumModel

namespace BollingerBandsModel

/-- `f"Bollinger Bands ({period}, {std_dev})"`. -/
def name (period std_dev : ℕ) : String :=
  "Bollinger Bands (" ++ toString period ++ ", " ++ toString std_dev ++ ")"

/-- `(current_lower - current_price) / current_lower * 100`, `None` when a
value is missing or the lower band is 0. -/
def lowerDistancePct (price lower : Option ℚ) : Option ℚ :=
  match price, lower with
  | some p, some l => if l ≠ 0 then some ((l - p) / l * 100) else none
  | _, _ => none

/-- `(current_price - current_upper) / current_upper * 100`. -/
def upperDistancePct (price upper : Option ℚ) : Option ℚ :=
  match price, upper with
  | some p, some u => if u ≠ 0 then some ((p - u) / u * 100) else none
  | _, _ => none

/-- `(current_upper - current_lower) / current_middle * 100`. -/
def bandWidthPct (upper lower middle : Option ℚ) : Option ℚ :=
  match upper, lower, middle with
  | some u, some l, some m => if m ≠ 0 then some ((u - l) / m * 100) else none
  | _, _, _ => none

/-- The lower-band guard of the first `if`: price and lower band present and
price within 2% of (or below) the lower band. -/
def nearLower (price lower : Option ℚ) : Bool :=
  match price, lower with
  | some p, some l =>
    decide (p ≤ l * 1.02) ||
      (match lowerDistancePct (some p) (some l) with
       | some d => decide (d ≤ 2)
       | none => false)
  | _, _ => false

/-- The upper-band guard of the `elif`. -/
def nearUpper (price upper : Option ℚ) : Bool :=
  match price, upper with
  | some p, some u =>
    decide (p ≥ u * 0.98) ||
      (match upperDistancePct (some p) (some u) with
       | some d => decide (d ≥ -2)
       | none => false)
  | _, _ => false

/-- `current_volume > avg_volume * 1.2`. -/
def volumeConfirm (volume avg_volume : Option ℚ) : Bool :=
  match volume, avg_volume with
  | some v, some a => decide (v > a * 1.2)
  | _, _ => false

/-- The band-position rule: the lower-band check runs first; the upper-band
check is an `elif`, so it is skipped whenever the lower-band check fires. -/
def bandRule (price lower upper volume avg_volume : Option ℚ) : String × ℤ :=
  if nearLower price lower then
    ("BUY", 35 + (if volumeConfirm volume avg_volume then 15 else 0))
  else if nearUpper price upper then
    ("SELL", 35 + (if volumeConfirm volume avg_volume then 15 else 0))
  else ("HOLD", 0)

/-- `series.mean()` with pandas NaN skipping; NaN (`none`) when no valid
cell exists. -/
def meanSkipna (s : List Cell) : Option ℚ :=
  let v := s.filterMap id
  if v.length = 0 then none else some (listMean v)

/-- Band-squeeze bonus: +10 when the current width is below 0.8× the
historical average width. -/
def squeezeBonus (band_width avg_band_width : Option ℚ) : ℤ :=
  match band_width, avg_band_width with
  | some b, some a => if b < a * 0.8 then 10 else 0
  | _, _ => 0

/-- Middle-band bias: +10 reinforcing an existing BUY above the middle band
or an existing SELL at-or-below it; never changes the signal. -/
def middleBias (sig : String) (price middle : Option ℚ) : ℤ :=
  match price, middle with
  | some p, some m =>
    if p > m then (if sig = "BUY" then 10 else 0)
    else (if sig = "SELL" then 10 else 0)
  | _, _ => 0

/-- `BollingerBandsModel.detect_band_walk` on the aligned, NaN-free series. -/
def detect_band_walk (prices upper_band lower_band : List ℚ) : Finding :=
  if prices.length < 5 ∨ upper_band.length < 5 ∨ lower_band.length < 5 then ⟨"None", 0⟩
  else
    let rows := List.zip (prices.drop (prices.length - 5))
      (List.zip (upper_band.drop (upper_band.length - 5))
        (lower_band.drop (lower_band.length - 5)))
    if rows.length < 5 then ⟨"None", 0⟩
    else
      let upper_touches := (rows.filter fun r => decide (r.1 ≥ r.2.1 * 0.98)).length
      let lower_touches := (rows.filter fun r => decide (r.1 ≤ r.2.2 * 1.02)).length
      if upper_touches ≥ 3 then ⟨"Upper Band Walk", 15⟩
      else if lower_touches ≥ 3 then ⟨"Lower Band Walk", 15⟩
      else ⟨"None", 0⟩

/-- Rows of the aligned `DataFrame({'price', 'upper', 'lower'}).dropna()`. -/
def alignedRows (a b c : List Cell) : List (ℚ × ℚ × ℚ) :=
  (a.zip (b.zip c)).filterMap fun r =>
    match r with
    | (some x, (some y, some z)) => some (x, y, z)
    | _ => none

/-- The band-walk finding computed inside `analyze`: slice the last `period`
rows, align and drop NaNs, detect only with at least 5 aligned points. -/
def bandWalkOf (period : ℕ) (closes upperS lowerS : List Cell) : Finding :=
  let recent_closes := if period ≤ closes.length then
    closes.drop (closes.length - period) else closes
  let recent_upper : Option (List Cell) := if period ≤ upperS.length then
    some (upperS.drop (upperS.length - period)) else none
  let recent_lower : Option (List Cell) := if period ≤ lowerS.length then
    some (lowerS.drop (lowerS.length - period)) else none
  match recent_upper, recent_lower with
  | some ru, some rl =>
    if recent_closes ≠ [] then
      let rows := alignedRows recent_closes ru rl
      if 5 ≤ rows.length then
        detect_band_walk (rows.map fun r => r.1) (rows.map fun r => r.2.1)
          (rows.map fun r => r.2.2)
      else ⟨"None", 0⟩
    else ⟨"None", 0⟩
  | _, _ => ⟨"None", 0⟩

/-- The full Bollinger rule cascade of `analyze`: band-position rule, squeeze
bonus, middle-band bias, band-walk bonus, clamp.  No step after the
band-position rule assigns the signal. -/
def cascade (price upper lower middle volume avg_volume
    band_width avg_band_width : Option ℚ) (walk : Finding) : String × ℤ :=
  let r1 := bandRule price lower upper volume avg_volume
  let c2 := r1.2 + squeezeBonus band_width avg_band_width
  let c3 := c2 + middleBias r1.1 price middle
  let c4 := c3 + (if walk.type ≠ "None" then walk.strength else 0)
  (r1.1, max 0 (min c4 100))

/-- `f"Insufficient recent indicator data for analysis ..."`. -/
def insufficientBBMsg (a b c d : ℕ) : String :=
  "Insufficient recent indicator data for analysis (" ++ toString a ++ "/" ++
    toString b ++ "/" ++ toString c ++ " valid BB, " ++ toString d ++
    " valid VolSMA). Need at least 1 valid point for each."

/-- `BollingerBandsModel.analyze`.  The band-width history column is read
with `df.get(...)`, which cannot raise `KeyError`. -/
def analyze (period std_dev : ℕ) (sd : StockDF) : ModelResult :=
  let required := period
  if sd.nRows < required then
    { model := name period std_dev, signal := "HOLD", confidence := 0,
      reasoning := ["Insufficient data points for model logic."],
      error := some (insufficientDataMsg sd.nRows required) }
  else
    let bbBase := "BollingerBands_" ++ toString period ++ "_" ++ toString std_dev
    match sd.col (bbBase ++ "_upper"), sd.col (bbBase ++ "_middle"),
        sd.col (bbBase ++ "_lower"), sd.col "SMA_20" with
    | some upperS, some middleS, some lowerS, some volSmaS =>
      if validCount upperS < 1 ∨ validCount middleS < 1 ∨ validCount lowerS < 1 ∨
          validCount volSmaS < 1 then
        { model := name period std_dev, signal := "HOLD", confidence := 0,
          reasoning := ["Insufficient recent indicator data."],
          error := some (insufficientBBMsg (validCount upperS) (validCount middleS)
            (validCount lowerS) (validCount volSmaS)) }
      else
        let bwHist := sd.col ("BollingerBands_BandWidth_" ++ toString period ++
          "_" ++ toString std_dev)
        let price := latestValue sd.closes
        let upper := latestValue upperS
        let lower := latestValue lowerS
        let middle := latestValue middleS
        let volume := latestValue sd.volumes
        let avg_volume := latestValue volSmaS
        let avg_band_width := match bwHist with
          | some h => if h ≠ [] then meanSkipna h else none
          | none => none
        let walk := bandWalkOf period sd.closes upperS lowerS
        let r := cascade price upper lower middle volume avg_volume
          (bandWidthPct upper lower middle) avg_band_width walk
        { model := name period std_dev, signal := r.1, confidence := r.2,
          reasoning := [], error := none }
    | none, _, _, _ =>
      { model := name period std_dev, signal := "HOLD", confidence := 0,
        reasoning := ["Indicator Missing."],
        error := some (indicatorMissingMsg (bbBase ++ "_upper")) }
    | _, none, _, _ =>
      { model := name period std_dev, signal := "HOLD", confidence := 0,
        reasoning := ["Indicator Missing."],
        error := some (indicatorMissingMsg (bbBase ++ "_middle")) }
    | _, _, none, _ =>
      { model := name period std_dev, signal := "HOLD", confidence := 0,
        reasoning := ["Indicator Missing."],
        error := some (indicatorMissingMsg (bbBase ++ "_lower")) }
    | _, _, _, none =>
      { model := name period std_dev, signal := "HOLD", confidence := 0,
        reasoning := ["Indicator Missing."],
        error := some (indicatorMissingMsg "SMA_20") }

end BollingerBandsModel

/-! ## C2: insufficient bars always degrade gracefully -/

/-- C2: for each of the four models, any input with fewer rows than the
model's stated minimum produces the degraded result: signal HOLD, confidence
0, and a non-empty insufficient-data error message (the embedded `analyze`
functions are total, so no exception is possible).  The minimums are the
source's `required_data_length` expressions: `max(fast, slow)` for MA
crossover, `rsi_period + 1` for RSI, `max(slow, fast) + signal − 1` for MACD,
and `period` for Bollinger Bands. -/
theorem c2_insufficient_bars_degrade :
    (∀ (fast slow : ℕ) (sd : StockDF), sd.nRows < max fast slow →
      (MovingAverageCrossoverModel.analyze fast slow sd).signal = "HOLD" ∧
      (MovingAverageCrossoverModel.analyze fast slow sd).confidence = 0 ∧
      (MovingAverageCrossoverModel.analyze fast slow sd).error =
        some (insufficientDataMsg sd.nRows (max fast slow)) ∧
      insufficientDataMsg sd.nRows (max fast slow) ≠ "") ∧
    (∀ (p os ob : ℕ) (sd : StockDF), sd.nRows < p + 1 →
      (RSIMeanReversionModel.analyze p os ob sd).signal = "HOLD" ∧
      (RSIMeanReversionModel.analyze p os ob sd).confidence = 0 ∧
      (RSIMeanReversionModel.analyze p os ob sd).error =
        some (insufficientDataMsg sd.nRows (p + 1)) ∧
      insufficientDataMsg sd.nRows (p + 1) ≠ "") ∧
    (∀ (f s g : ℕ) (sd : StockDF), sd.nRows < max s f + g - 1 →
      (MACDMomentumModel.analyze f s g sd).signal = "HOLD" ∧
      (MACDMomentumModel.analyze f s g sd).confidence = 0 ∧
      (MACDMomentumModel.analyze f s g sd).error =
        some (insufficientDataMsg sd.nRows (max s f + g - 1)) ∧
      insufficientDataMsg sd.nRows (max s f + g - 1) ≠ "") ∧
    (∀ (p k : ℕ) (sd : StockDF), sd.nRows < p →
      (BollingerBandsModel.analyze p k sd).signal = "HOLD" ∧
      (BollingerBandsModel.analyze p k sd).confidence = 0 ∧
      (BollingerBandsModel.analyze p k sd).error =
        some (insufficientDataMsg sd.nRows p) ∧
      insufficientDataMsg sd.nRows p ≠ "") := by
  refine ⟨?_, ?_, ?_, ?_⟩
  · intro fast slow sd h
    unfold MovingAverageCrossoverModel.analyze
    rw [if_pos h]
    exact ⟨rfl, rfl, rfl, insufficientDataMsg_ne_empty _ _⟩
  · intro p os ob sd h
    unfold RSIMeanReversionModel.analyze
    rw [if_pos h]
    exact ⟨rfl, rfl, rfl, insufficientDataMsg_ne_empty _ _⟩
  · intro f s g sd h
    unfold MACDMomentumModel.analyze
    rw [if_pos h]
    exact ⟨rfl, rfl, rfl, insufficientDataMsg_ne_empty _ _⟩
  · intro p k sd h
    unfold BollingerBandsModel.analyze
    rw [if_pos h]
    exact ⟨rfl, rfl, rfl, insufficientDataMsg_ne_empty _ _⟩

/-- Witness for `c2_insufficient_bars_degrade`: a 10-row input against the
default parameters of each model (minimums 200, 15, 34 and 20). -/
theorem c2_insufficient_bars_degrade_witness :
    ((MovingAverageCrossoverModel.analyze 50 200 ⟨10, [], [], []⟩).signal = "HOLD" ∧
      (MovingAverageCrossoverModel.analyze 50 200 ⟨10, [], [], []⟩).confidence = 0 ∧
      (MovingAverageCrossoverModel.analyze 50 200 ⟨10, [], [], []⟩).error =
        some (insufficientDataMsg 10 (max 50 200)) ∧
      insufficientDataMsg 10 (max 50 200) ≠ "") ∧
    ((RSIMeanReversionModel.analyze 14 30 70 ⟨10, [], [], []⟩).signal = "HOLD" ∧
      (RSIMeanReversionModel.analyze 14 30 70 ⟨10, [], [], []⟩).confidence = 0 ∧
      (RSIMeanReversionModel.analyze 14 30 70 ⟨10, [], [], []⟩).error =
        some (insufficientDataMsg 10 (14 + 1)) ∧
      insufficientDataMsg 10 (14 + 1) ≠ "") ∧
    ((MACDMomentumModel.analyze 12 26 9 ⟨10, [], [], []⟩).signal = "HOLD" ∧
      (MACDMomentumModel.analyze 12 26 9 ⟨10, [], [], []⟩).confidence = 0 ∧
      (MACDMomentumModel.analyze 12 26 9 ⟨10, [], [], []⟩).error =
        some (insufficientDataMsg 10 (max 26 12 + 9 - 1)) ∧
      insufficientDataMsg 10 (max 26 12 + 9 - 1) ≠ "") ∧
    ((BollingerBandsModel.analyze 20 2 ⟨10, [], [], []⟩).signal = "HOLD" ∧
      (BollingerBandsModel.analyze 20 2 ⟨10, [], [], []⟩).confidence = 0 ∧
      (BollingerBandsModel.analyze 20 2 ⟨10, [], [], []⟩).error =
        some (insufficientDataMsg 10 20) ∧
      insufficientDataMsg 10 20 ≠ "") :=
  ⟨c2_insufficient_bars_degrade.1 50 200 ⟨10, [], [], []⟩ (by decide),
    c2_insufficient_bars_degrade.2.1 14 30 70 ⟨10, [], [], []⟩ (by decide),
    c2_insufficient_bars_degrade.2.2.1 12 26 9 ⟨10, [], [], []⟩ (by decide),
    c2_insufficient_bars_degrade.2.2.2 20 2 ⟨10, [], [], []⟩ (by decide)⟩

/-! ## C9: exact MACD/signal-line equality is classified bearish -/

/-- `zeroCrossRule` never changes a SELL signal. -/
theorem zeroCrossRule_keeps_sell (conf : ℤ) (cm pm : Option ℚ) :
    (MACDMomentumModel.zeroCrossRule "SELL" conf cm pm).1 = "SELL" := by
  unfold MACDMomentumModel.zeroCrossRule
  cases cm with
  | none => rfl
  | some m =>
    cases pm with
    | none => rfl
    | some p =>
      have hs : ¬(("SELL" : String) = "HOLD" ∨ ("SELL" : String) = "WAIT") := by decide
      simp only [if_neg hs]
      split_ifs <;> rfl

/-- With the latest MACD and signal values exactly equal, both crossover
conditions of `signalCrossRule` are false. -/
theorem signalCrossRule_equal_lines (sig : String) (conf : ℤ) (v : ℚ)
    (pm ps : Option ℚ) :
    MACDMomentumModel.signalCrossRule sig conf (some v) (some v) pm ps = (sig, conf) := by
  unfold MACDMomentumModel.signalCrossRule
  cases pm with
  | none => rfl
  | some p =>
    cases ps with
    | none => rfl
    | some q => split_ifs <;> simp_all

/-- C9: when the latest MACD-line and signal-line values are both present and
exactly equal, the line-vs-signal rule takes its `else` (bearish) branch —
the signal becomes SELL (never stays HOLD) and 25 confidence is added — and
the remaining rules of the cascade cannot displace the SELL, so the cascade's
final signal is SELL. -/
theorem c9_macd_equality_bearish (v : ℚ) (ch pm ps ph : Option ℚ) :
    MACDMomentumModel.lineRule "HOLD" 0 (some v) (some v) = ("SELL", 0 + 25) ∧
    (MACDMomentumModel.cascade (some v) (some v) ch pm ps ph).1 = "SELL" := by
  have h1 : MACDMomentumModel.lineRule "HOLD" 0 (some v) (some v) = ("SELL", 0 + 25) := by
    have hv : ¬ v > v := lt_irrefl v
    simp [MACDMomentumModel.lineRule, hv]
  refine ⟨h1, ?_⟩
  unfold MACDMomentumModel.cascade
  simp only [h1]
  rw [signalCrossRule_equal_lines]
  simpa using zeroCrossRule_keeps_sell _ _ _

/-! ## C10: degenerately narrow Bollinger bands give BUY, never SELL -/

/-- C10: when the latest price is within 2% of the lower band (in particular
when it is simultaneously within 2% of both bands of a degenerately narrow
channel), the band-position rule fires its first branch: BUY with +35 (plus
the 15 volume bonus when volume confirms), and since the upper-band check is
an `elif` and no later cascade step assigns the signal, the final signal is
BUY — SELL is unreachable. -/
theorem c10_bollinger_lower_band_first (p l u : ℚ) (middle volume avg_volume bw abw : Option ℚ)
    (walk : Finding) (hl : p ≤ l * 1.02) (hu : u * 0.98 ≤ p) :
    BollingerBandsModel.bandRule (some p) (some l) (some u) volume avg_volume =
      ("BUY", 35 + (if BollingerBandsModel.volumeConfirm volume avg_volume then 15 else 0)) ∧
    (BollingerBandsModel.cascade (some p) (some u) (some l) middle volume avg_volume
      bw abw walk).1 = "BUY" ∧
    (BollingerBandsModel.cascade (some p) (some u) (some l) middle volume avg_volume
      bw abw walk).1 ≠ "SELL" := by
  have hnear : BollingerBandsModel.nearLower (some p) (some l) = true := by
    unfold BollingerBandsModel.nearLower
    simp only [Bool.or_eq_true, decide_eq_true_eq]
    exact Or.inl hl
  have hband : BollingerBandsModel.bandRule (some p) (some l) (some u) volume avg_volume =
      ("BUY", 35 + (if BollingerBandsModel.volumeConfirm volume avg_volume then 15 else 0)) := by
    unfold BollingerBandsModel.bandRule
    rw [if_pos hnear]
  refine ⟨hband, ?_, ?_⟩
  · unfold BollingerBandsModel.cascade
    simp only [hband]
  · unfold BollingerBandsModel.cascade
    simp only [hband]
    decide

/-- Witness for `c10_bollinger_lower_band_first` at price 1 with both bands
at 1 (bands of zero width: the price is within 2% of both). -/
theorem c10_bollinger_lower_band_first_witness :
    (BollingerBandsModel.bandRule (some 1) (some 1) (some 1) none none =
      ("BUY", 35 + (if BollingerBandsModel.volumeConfirm none none then 15 else 0))) ∧
    ((BollingerBandsModel.cascade (some 1) (some 1) (some 1) none none none
      none none ⟨"None", 0⟩).1 = "BUY") ∧
    ((BollingerBandsModel.cascade (some 1) (some 1) (some 1) none none none
      none none ⟨"None", 0⟩).1 ≠ "SELL") :=
  c10_bollinger_lower_band_first 1 1 1 none none none none none ⟨"None", 0⟩
    (by norm_num) (by norm_num)

/-! ## C7: the divergence promotion branch is unreachable -/

/-- `detect_divergence` only ever returns one of its three literal results. -/
theorem detect_divergence_range (prices rsi_values : List ℚ) :
    RSIMeanReversionModel.detect_divergence prices rsi_values = ⟨"None", 0⟩ ∨
    RSIMeanReversionModel.detect_divergence prices rsi_values = ⟨"Potential Bullish", 15⟩ ∨
    RSIMeanReversionModel.detect_divergence prices rsi_values = ⟨"Potential Bearish", 15⟩ := by
  unfold RSIMeanReversionModel.detect_divergence
  split_ifs <;> simp

/-- C7 (counterexample): on the concrete series `prices = [5, 3, 5, 2, 5]`
(price makes a lower low) and `rsi = [30, 20, 30, 25, 30]` (RSI makes a
higher low), the detector does report a bullish divergence — but with type
`"Potential Bullish"` and strength exactly 15, so the promotion branch
(`== "Bullish"` and `strength > 15`) does not fire and the threshold-stage
HOLD stays HOLD: the divergence never promotes the signal, in this
best-possible case or (per the amended theorem below) any other. -/
theorem c7_counterexample :
    RSIMeanReversionModel.detect_divergence [5, 3, 5, 2, 5] [30, 20, 30, 25, 30] =
      ⟨"Potential Bullish", 15⟩ ∧
    RSIMeanReversionModel.applyDivergence "HOLD" 0
        (RSIMeanReversionModel.detect_divergence [5, 3, 5, 2, 5]
          [30, 20, 30, 25, 30]) =
      ("HOLD", 15) ∧
    ¬ ((RSIMeanReversionModel.detect_divergence [5, 3, 5, 2, 5]
      [30, 20, 30, 25, 30]).strength > 15) := by
  refine ⟨?_, ?_, ?_⟩ <;> decide

/-- C7 (amended): the divergence step only adds the detected strength (0 or
15) to the confidence and never changes the signal. -/
theorem c7_divergence_only_adds_confidence (prices rsi_values : List ℚ)
    (sig : String) (conf : ℤ) :
    RSIMeanReversionModel.applyDivergence sig conf
        (RSIMeanReversionModel.detect_divergence prices rsi_values) =
      (sig, conf + (RSIMeanReversionModel.detect_divergence prices rsi_values).strength) ∧
    ((RSIMeanReversionModel.detect_divergence prices rsi_values).strength = 0 ∨
      (RSIMeanReversionModel.detect_divergence prices rsi_values).strength = 15) := by
  rcases detect_divergence_range prices rsi_values with h | h | h <;> rw [h] <;>
    unfold RSIMeanReversionModel.applyDivergence <;> simp
